import Mathlib

set_option linter.unusedVariables false

/-! Shallow embedding of the monitoring backend (`src/backend/main.py`) and of
the Portainer client (`src/backend/portainer_client.py`).

Modelling conventions:
* instants of time are integer seconds (`Int`); `datetime.now(timezone.utc)`
  becomes an explicit `now : Int` argument and `.isoformat()` an explicit
  `nowStr : String` argument carried alongside it;
* the Python library functions `datetime.fromisoformat` and `json.loads` are
  external to the repository and are modelled as function parameters
  (`parseTs : String → Option Int`, returning `none` when parsing raises, and
  `loads : String → Option JValue`, returning `none` on `JSONDecodeError`);
* `str.replace` is embedded concretely as `pyReplace` (replace every
  non-overlapping occurrence, scanning left to right, CPython semantics);
* Python dicts are association lists with unique keys (`alistInsert`
  replaces in place, preserving insertion order, exactly like `d[k] = v`);
* handlers that can raise `HTTPException` return `Except Nat _` carrying the
  HTTP status code; uncaught Python exceptions in the Portainer client are
  `Except PyErr _`. -/

/-- Worker for `pyReplace` on character lists: replace every non-overlapping
occurrence of `pat` by `rep`, scanning left to right.  The fuel is the length
of the string; each step consumes at least one character, so the fuel never
runs out on the strings it is called with. -/
def replaceFuel (pat rep : List Char) : Nat → List Char → List Char
  | 0, s => s
  | fuel + 1, s =>
    match s with
    | [] => []
    | c :: rest =>
      if pat.isPrefixOf s then rep ++ replaceFuel pat rep fuel (s.drop pat.length)
      else c :: replaceFuel pat rep fuel rest

/-- Python `str.replace(pat, rep)`.  The empty-pattern case follows CPython:
the replacement is inserted before every character and at the end. -/
def pyReplace (s pat rep : String) : String :=
  if pat.data = [] then
    ⟨rep.data ++ s.data.foldr (fun c acc => c :: (rep.data ++ acc)) []⟩
  else ⟨replaceFuel pat.data rep.data s.data.length s.data⟩

/-- Lookup in a Python dict modelled as an association list. -/
def alistLookup {α : Type} (k : String) : List (String × α) → Option α
  | [] => none
  | (k', v) :: rest => if k' = k then some v else alistLookup k rest

/-- Python `d[k] = v`: replace the value in place if the key exists,
otherwise append the new binding (dicts preserve insertion order). -/
def alistInsert {α : Type} (k : String) (v : α) : List (String × α) → List (String × α)
  | [] => [(k, v)]
  | (k', v') :: rest => if k' = k then (k, v) :: rest else (k', v') :: alistInsert k v rest

/-- Python `del d[k]` (dict keys are unique, so filtering is equivalent). -/
def alistErase {α : Type} (k : String) (l : List (String × α)) : List (String × α) :=
  l.filter (fun p => decide (¬ p.1 = k))

/-- JSON values as produced by `json.loads`. -/
inductive JValue : Type where
  | null
  | bool (b : Bool)
  | num (q : Rat)
  | str (s : String)
  | arr (xs : List JValue)
  | obj (fields : List (String × JValue))

/-- Python exceptions relevant to the Portainer client.  The `except` clause
in `get_custom_template_file` catches exactly `JSONDecodeError`, `KeyError`
and `IndexError`; a `TypeError` or `AttributeError` propagates. -/
inductive PyErr : Type where
  | jsonDecodeError
  | keyError
  | indexError
  | typeError
  | attributeError
  deriving DecidableEq

/-- Whether the `except (json.JSONDecodeError, KeyError, IndexError)` clause
of `get_custom_template_file` catches this exception. -/
def PyErr.caught : PyErr → Bool
  | .jsonDecodeError | .keyError | .indexError => true
  | .typeError | .attributeError => false

/-- Substring test on character lists (Python `pat in s` for strings; the
empty pattern is contained in every string). -/
def isSubstrList (pat : List Char) : List Char → Bool
  | [] => pat.isEmpty
  | c :: rest => pat.isPrefixOf (c :: rest) || isSubstrList pat rest

/-- Python `key in x` for a JSON value: key membership for dicts, substring
test for strings, element equality for lists, `TypeError` otherwise. -/
def pyContains (key : String) : JValue → Except PyErr Bool
  | .obj fields => .ok (fields.any (fun p => p.1 == key))
  | .str s => .ok (isSubstrList key.data s.data)
  | .arr xs => .ok (xs.any (fun x => match x with | .str s => s == key | _ => false))
  | .null => .error .typeError
  | .bool _ => .error .typeError
  | .num _ => .error .typeError

/-- Python `x[key]` for a string key: dict item access (raising `KeyError`
when the key is absent), `TypeError` on any non-dict value. -/
def pySubscript (key : String) : JValue → Except PyErr JValue
  | .obj fields =>
    match alistLookup key fields with
    | some v => .ok v
    | none => .error .keyError
  | _ => .error .typeError

/- ==================== DATA MODELS (main.py) ==================== -/

/-- Pydantic `LoadAvg` (`1m`/`5m`/`15m` aliases).  Float telemetry values are
carried as rationals; no claim computes with them. -/
structure LoadAvg : Type where
  one_min : Rat
  five_min : Rat
  fifteen_min : Rat

structure CPU : Type where
  percent : Rat
  loadavg : LoadAvg

structure Memory : Type where
  total_gb : Rat
  used_gb : Rat
  percent : Rat

structure Disk : Type where
  mountpoint : String
  fstype : String
  free_gb : Rat
  total_gb : Rat
  percent : Rat

structure LoggedUser : Type where
  name : String
  tty : String
  host : String
  started : String

structure GPUProcess : Type where
  pid : Int
  username : String
  cmd : String
  used_memory_mb : Int
  type : Option String

structure GPU : Type where
  index : Int
  name : String
  utilization_pct : Rat
  memory_used_mb : Int
  memory_total_mb : Int
  temperature_celsius : Option Rat
  fan_speed_pct : Option Int
  power_draw_watts : Option Rat
  processes : List GPUProcess

structure Container : Type where
  id : String
  name : String
  image : String
  state : String
  created : String
  ports : String
  cpu_pct : Rat
  mem_mb : Int

structure ServerReport : Type where
  server_alias : String
  hostname : String
  ip : String
  uptime_seconds : Int
  cpu : CPU
  memory : Memory
  disks : List Disk
  users : List LoggedUser
  gpus : List GPU
  containers : List Container
  timestamp : String
  machine_type : String
  group : String
  os : String
  labels : List String

/-- Entry of the `server_data` dict: the spread of `report.model_dump()`
plus the server-assigned `received_at` and the initial `status`. -/
structure ServerRecord : Type where
  report : ServerReport
  received_at : String
  status : String

/-- Entry of the `machine_registry` dict. -/
structure Machine : Type where
  id : String
  alias' : String
  type : String
  group : String
  parent : Option String
  ip : String
  os : String
  labels : List String
  status : String
  deriving DecidableEq

/-- One element of the `results` list built by `get_status`. -/
structure StatusEntry : Type where
  server_alias : String
  status : String
  hostname : String
  ip : String
  uptime_seconds : Int
  cpu : CPU
  memory : Memory
  disks : List Disk
  users : List LoggedUser
  gpus : List GPU
  timestamp : String
  os : String

/-- The two module-level in-memory maps of main.py. -/
structure BackendState : Type where
  server_data : List (String × ServerRecord)
  machine_registry : List (String × Machine)

/- ==================== HELPER FUNCTIONS (main.py) ==================== -/

/-- Python `str.strip()`: drop whitespace from both ends. -/
def pyStrip (s : String) : String :=
  ⟨((s.data.dropWhile Char.isWhitespace).reverse.dropWhile Char.isWhitespace).reverse⟩

/-- main.py `is_server_stale`: parse the ISO timestamp (after replacing the
literal `Z` by `+00:00`), compare the age against the threshold; any parse
failure is caught and reported as stale. -/
def is_server_stale (parseTs : String → Option Int) (threshold : Int)
    (now : Int) (last_update : String) : Bool :=
  match parseTs (pyReplace last_update "Z" "+00:00") with
  | some t => decide (now - t > threshold)
  | none => true

/-- main.py `verify_api_key`: a missing or empty header is rejected; every
occurrence of `"Bearer "` is removed (Python `str.replace` replaces all
occurrences), the result is stripped and compared with the configured key. -/
def verify_api_key (apiKey : String) : Option String → Bool
  | none => false
  | some a => if a = "" then false else pyStrip (pyReplace a "Bearer " "") == apiKey

/- ==================== ENDPOINTS (main.py) ==================== -/

/-- Machine entry written for the reporting host itself. -/
def hostMachine (report : ServerReport) : Machine :=
  { id := report.server_alias
    alias' := report.server_alias
    type := report.machine_type
    group := report.group
    parent := none
    ip := report.ip
    os := report.os
    labels := report.labels
    status := "online" }

/-- Registry key `f"{server_alias}-{container.name}"` of a container. -/
def containerKey (report : ServerReport) (c : Container) : String :=
  report.server_alias ++ "-" ++ c.name

/-- Machine entry written for one container of a report. -/
def containerMachine (report : ServerReport) (c : Container) : Machine :=
  { id := containerKey report c
    alias' := c.name
    type := "container"
    group := report.group
    parent := some report.server_alias
    ip := report.ip
    os := c.image
    labels := ["container", c.state]
    status := if c.state = "running" then "online" else "offline" }

/-- main.py `receive_report` (`POST /api/report`): after the API-key check,
store the server record keyed by the alias, write the host machine entry and
one container machine entry per reported container.  `nowStr` is the
`datetime.now(timezone.utc).isoformat()` string; the response carries it back
as `received_at`. -/
def receive_report (apiKey : String) (authorization : Option String)
    (report : ServerReport) (nowStr : String) (st : BackendState) :
    Except Nat (BackendState × String) :=
  if verify_api_key apiKey authorization then
    .ok
      ({ server_data :=
          alistInsert report.server_alias
            { report := report, received_at := nowStr, status := "ok" }
            st.server_data
         machine_registry :=
          report.containers.foldl
            (fun mr c => alistInsert (containerKey report c) (containerMachine report c) mr)
            (alistInsert report.server_alias (hostMachine report) st.machine_registry) },
       nowStr)
  else .error 401

/-- Projection of one stored record to a `get_status` result entry, with the
status recomputed from staleness (`data.get("os", "Unknown")` always finds
the `os` key since `model_dump` includes it). -/
def statusOf (parseTs : String → Option Int) (threshold now : Int)
    (r : ServerRecord) : StatusEntry :=
  { server_alias := r.report.server_alias
    status := if is_server_stale parseTs threshold now r.received_at then "down" else "ok"
    hostname := r.report.hostname
    ip := r.report.ip
    uptime_seconds := r.report.uptime_seconds
    cpu := r.report.cpu
    memory := r.report.memory
    disks := r.report.disks
    users := r.report.users
    gpus := r.report.gpus
    timestamp := r.report.timestamp
    os := r.report.os }

/-- main.py `get_status` (`GET /api/status`): recompute every record's status
from its `received_at` age and project the response fields.  The in-place
update of the stored `status` field never feeds back into any read, so the
model returns the results list. -/
def get_status (parseTs : String → Option Int) (threshold now : Int)
    (st : BackendState) : List StatusEntry :=
  st.server_data.map (fun p => statusOf parseTs threshold now p.2)

/-- main.py `get_machines` (`GET /api/machines`): host entries that still
have a server record get their status re-derived from staleness; every other
entry (in particular every container entry) is returned unchanged. -/
def get_machines (parseTs : String → Option Int) (threshold now : Int)
    (st : BackendState) : List Machine :=
  st.machine_registry.map (fun p =>
    if p.2.type = "host" then
      match alistLookup p.1 st.server_data with
      | some sd =>
        { p.2 with
          status := if is_server_stale parseTs threshold now sd.received_at
                    then "offline" else "online" }
      | none => p.2
    else p.2)

/-- main.py `delete_server` (`DELETE /api/server/{alias}`): API-key check,
404 for an unknown alias, otherwise remove the server record and every
registry entry whose key equals the alias or whose parent equals the alias
(the Python code collects `to_remove` and deletes each key; on a dict with
unique keys that is the same as this filter). -/
def delete_server (apiKey : String) (authorization : Option String)
    (alias' : String) (st : BackendState) : Except Nat BackendState :=
  if verify_api_key apiKey authorization then
    match alistLookup alias' st.server_data with
    | none => .error 404
    | some _ =>
      .ok
        { server_data := alistErase alias' st.server_data
          machine_registry :=
            st.machine_registry.filter
              (fun p => decide (¬ (p.1 = alias' ∨ p.2.parent = some alias'))) }
  else .error 401

/- ============ PORTAINER ENDPOINTS (main.py + portainer_client.py) ============ -/

/-- portainer_client.py `get_custom_template_file`, body of the `try` block:
decode the file content as JSON; when it is a non-empty array, evaluate the
condition `"repository" in parsed[0] and "stackfile" in parsed[0]["repository"]`
and, when it holds, return `parsed[0]["repository"]["stackfile"]`.
Returns `some v` for an early `return v`, `none` when control falls through
to the final `return file_content`, and an error for a raised exception. -/
def templateFileTry (loads : String → Option JValue) (file_content : String) :
    Except PyErr (Option JValue) :=
  match loads file_content with
  | none => .error .jsonDecodeError
  | some parsed =>
    match parsed with
    | .arr (template_data :: _) =>
      match pyContains "repository" template_data with
      | .error e => .error e
      | .ok false => .ok none
      | .ok true =>
        match pySubscript "repository" template_data with
        | .error e => .error e
        | .ok repo =>
          match pyContains "stackfile" repo with
          | .error e => .error e
          | .ok false => .ok none
          | .ok true =>
            match pySubscript "repository" template_data with
            | .error e => .error e
            | .ok repo2 =>
              match pySubscript "stackfile" repo2 with
              | .error e => .error e
              | .ok v => .ok (some v)
    | _ => .ok none

/-- portainer_client.py `get_custom_template_file`: run the `try` body; the
`except (json.JSONDecodeError, KeyError, IndexError)` clause swallows those
three exceptions and falls through to `return file_content`; any other
exception propagates.  `file_content` is the `FileContent` string fetched
from the Portainer API. -/
def get_custom_template_file (loads : String → Option JValue)
    (file_content : String) : Except PyErr JValue :=
  match templateFileTry loads file_content with
  | .ok (some v) => .ok v
  | .ok none => .ok (.str file_content)
  | .error e => if e.caught then .ok (.str file_content) else .error e

/-- One element of an endpoint's `Snapshots` list; `swarm` is the optional
boolean `Swarm` key. -/
structure Snapshot : Type where
  swarm : Option Bool
  deriving DecidableEq

/-- Portainer endpoint details as used by `deploy_stack_from_template`:
`snapshots = none` models a response without a `Snapshots` key. -/
structure Endpoint : Type where
  snapshots : Option (List Snapshot)
  deriving DecidableEq

/-- portainer_client.py line 219: `endpoint.get("Snapshots", [{}])[0]
.get("Swarm", False) if endpoint.get("Snapshots") else False` — a missing
key and an empty list are both falsy, otherwise the first snapshot's
`Swarm` value with default `False`. -/
def computeIsSwarm (endpoint : Endpoint) : Bool :=
  match endpoint.snapshots with
  | none => false
  | some [] => false
  | some (s :: _) => s.swarm.getD false

/-- Stack-creation URL chosen by `deploy_stack_from_template`. -/
def stackCreateUrl (base : String) (is_swarm : Bool) (endpoint_id : Nat) : String :=
  if is_swarm then base ++ "/stacks/create/swarm/string?endpointId=" ++ toString endpoint_id
  else base ++ "/stacks/create/standalone/string?endpointId=" ++ toString endpoint_id

/-- The outbound stack-creation request: target URL and the JSON payload
(`name`, `stackFileContent`, `env` with its `{name, value}` dicts). -/
structure StackCreateRequest : Type where
  url : String
  name : String
  stackFileContent : JValue
  env : List (String × String)

/-- Python `file_content.replace(pat, rep)` on a value of unknown type: a
string is replaced, any other value raises `AttributeError`. -/
def pyStrReplace (fc : JValue) (pat rep : String) : Except PyErr JValue :=
  match fc with
  | .str s => .ok (.str (pyReplace s pat rep))
  | _ => .error .attributeError

/-- Loop body of `deploy_stack_from_template`: for each env var dict having
both a `name` and a `value` key, append `{name, value}` to `env_list` and
replace every `\x7b\x7b name \x7d\x7d` placeholder in the file content. -/
def applyEnvVars : List (List (String × String)) → JValue → List (String × String) →
    Except PyErr (JValue × List (String × String))
  | [], fc, acc => .ok (fc, acc)
  | ev :: rest, fc, acc =>
    match alistLookup "name" ev, alistLookup "value" ev with
    | some n, some v =>
      match pyStrReplace fc ("\x7b\x7b" ++ n ++ "\x7d\x7d") v with
      | .error e => .error e
      | .ok fc2 => applyEnvVars rest fc2 (acc ++ [(n, v)])
    | _, _ => applyEnvVars rest fc acc

/-- portainer_client.py `deploy_stack_from_template`: resolve the template
file content (`raw` is the fetched `FileContent` string), compute the swarm
flag from the endpoint details, substitute the env-var placeholders, and
build the stack-creation request (swarm or standalone URL).  `env_vars =
none` models the Python default `None`; an empty list behaves identically
(`if env_vars:` is false for both). -/
def deploy_stack_from_template (base : String) (loads : String → Option JValue)
    (raw : String) (endpoint : Endpoint) (name : String) (endpoint_id : Nat)
    (env_vars : Option (List (List (String × String)))) :
    Except PyErr StackCreateRequest :=
  match get_custom_template_file loads raw with
  | .error e => .error e
  | .ok fc0 =>
    match applyEnvVars (env_vars.getD []) fc0 [] with
    | .error e => .error e
    | .ok (fc, env_list) =>
      .ok { url := stackCreateUrl base (computeIsSwarm endpoint) endpoint_id
            name := name
            stackFileContent := fc
            env := env_list }

/-- main.py `deploy_stack` (`POST /api/portainer/deploy`): API-key check
first (401), then the configured-client check (503), then the client call;
any exception from the client surfaces as a 500.  A `.ok` result is the
outbound request actually issued; an `.error` means no stack-creation
request was sent. -/
def deploy_stack_endpoint (apiKey : String) (authorization : Option String)
    (configured : Bool) (base : String) (loads : String → Option JValue)
    (raw : String) (endpoint : Endpoint) (name : String) (endpoint_id : Nat)
    (env_vars : Option (List (List (String × String)))) :
    Except Nat StackCreateRequest :=
  if verify_api_key apiKey authorization then
    if configured then
      match deploy_stack_from_template base loads raw endpoint name endpoint_id env_vars with
      | .ok req => .ok req
      | .error _ => .error 500
    else .error 503
  else .error 401

/-- main.py `delete_portainer_stack` (`DELETE /api/portainer/stacks/{id}`):
API-key check first (401), then the configured-client check (503); a `.ok`
result is the `(stack_id, endpoint_id)` of the outbound DELETE actually
issued. -/
def delete_stack_endpoint (apiKey : String) (authorization : Option String)
    (configured : Bool) (stack_id endpoint_id : Nat) : Except Nat (Nat × Nat) :=
  if verify_api_key apiKey authorization then
    if configured then .ok (stack_id, endpoint_id)
    else .error 503
  else .error 401

/- ==================== SPEC-SIDE DEFINITIONS ==================== -/

/-- Definition following the spec's words for C2 ("for each caller-supplied
`{name, value}` pair, literally substitute every occurrence of the token
`\x7b\x7b name \x7d\x7d` in the file content with `value`, plain string
replacement"): sequential replace-all over the pairs that carry both keys. -/
def spec_substitute (pairs : List (List (String × String))) (content : String) : String :=
  pairs.foldl
    (fun c ev =>
      match alistLookup "name" ev, alistLookup "value" ev with
      | some n, some v => pyReplace c ("\x7b\x7b" ++ n ++ "\x7d\x7d") v
      | _, _ => c)
    content

/-- Definition following the spec's words for C2: the env list forwarded in
the request body is the list of caller-supplied pairs that carry both a
`name` and a `value` key. -/
def spec_env_list (pairs : List (List (String × String))) : List (String × String) :=
  pairs.filterMap
    (fun ev =>
      match alistLookup "name" ev, alistLookup "value" ev with
      | some n, some v => some (n, v)
      | _, _ => none)

/- ==================== CONCRETE VALUES ==================== -/

/-- Concrete instance of the `datetime.fromisoformat` parameter: a table
that agrees with the real parser on the timestamps used below (offset
timestamps parse; a malformed string raises, i.e. yields `none`). -/
def demoParseTs : String → Option Int := fun s =>
  if s = "2026-01-01T00:00:00+00:00" then some 0 else none

def demoContainer : Container :=
  { id := "abc123", name := "web", image := "nginx:latest", state := "running"
    created := "2026-01-01", ports := "80/tcp", cpu_pct := 0, mem_mb := 64 }

def demoReport : ServerReport :=
  { server_alias := "srv", hostname := "host1", ip := "10.0.0.1"
    uptime_seconds := 3600
    cpu := { percent := 5, loadavg := { one_min := 0, five_min := 0, fifteen_min := 0 } }
    memory := { total_gb := 16, used_gb := 4, percent := 25 }
    disks := [], users := [], gpus := []
    containers := [demoContainer]
    timestamp := "2026-01-01T00:00:00Z"
    machine_type := "host", group := "default", os := "Ubuntu", labels := [] }

def emptyState : BackendState := { server_data := [], machine_registry := [] }

/-- State after ingesting `demoReport` at instant 0 into the empty state. -/
def demoState2 : BackendState :=
  match receive_report "secret" (some "secret") demoReport "2026-01-01T00:00:00Z" emptyState with
  | .ok (s, _) => s
  | .error _ => emptyState

/-- Report carrying two containers with the same name (allowed by the input
schema; container names collide in the registry key). -/
def demoReportDup : ServerReport :=
  { demoReport with
    containers := [demoContainer, { demoContainer with id := "def456", state := "exited" }] }

/-- State after ingesting `demoReportDup` into the empty state. -/
def demoStateDup : BackendState :=
  match receive_report "secret" (some "secret") demoReportDup "2026-01-01T00:00:00Z" emptyState with
  | .ok (s, _) => s
  | .error _ => emptyState

/-- Registry entry left over from an earlier report of `srv` (container
`old`, no longer present in `demoReport`). -/
def demoOldMachine : Machine :=
  { id := "srv-old", alias' := "old", type := "container", group := "default"
    parent := some "srv", ip := "10.0.0.1", os := "redis:7"
    labels := ["container", "exited"], status := "offline" }

/-- State holding only the leftover `srv-old` registry entry. -/
def demoStateOld : BackendState :=
  { server_data := [], machine_registry := [("srv-old", demoOldMachine)] }

/-- State after ingesting `demoReport` into `demoStateOld`. -/
def demoStateOld2 : BackendState :=
  match receive_report "secret" (some "secret") demoReport "2026-01-01T00:00:00Z" demoStateOld with
  | .ok (s, _) => s
  | .error _ => emptyState

/-- Concrete instance of the `json.loads` parameter: plain compose text does
not decode; `"APP"` decodes to an App-Template array whose first element
carries `repository.stackfile`; `"[5]"` decodes to a one-element array
holding the number 5 (as the real `json.loads` would). -/
def demoLoads : String → Option JValue := fun s =>
  if s = "APP" then
    some (.arr [.obj
      [("type", .num 1),
       ("title", .str "demo"),
       ("repository", .obj [("url", .str "https://example.com"),
                            ("stackfile", .str "services: stack")])]])
  else if s = "[5]" then some (.arr [.num 5])
  else none

def demoEndpointSwarm : Endpoint := { snapshots := some [{ swarm := some true }] }

def demoEndpointStandalone : Endpoint := { snapshots := none }

/-- Compose-file text containing the `PORT` placeholder twice. -/
def demoComposeRaw : String :=
  "port: \x7b\x7bPORT\x7d\x7dand\x7b\x7bPORT\x7d\x7d"

def demoEnvVars : Option (List (List (String × String))) :=
  some [[("name", "PORT"), ("value", "8080")]]

/-- Outbound request produced by a concrete deploy against the swarm
endpoint (plain compose text, no env vars). -/
def demoDeployReq : StackCreateRequest :=
  match deploy_stack_from_template "/api" (fun _ => none) demoComposeRaw
      demoEndpointSwarm "web" 1 none with
  | .ok r => r
  | .error _ => { url := "", name := "", stackFileContent := .null, env := [] }

/- ==================== HELPER LEMMAS ==================== -/

theorem alistLookup_insert_self {α : Type} (k : String) (v : α) (l : List (String × α)) :
    alistLookup k (alistInsert k v l) = some v := by
  induction l with
  | nil => simp [alistInsert, alistLookup]
  | cons p rest ih =>
    by_cases h : p.1 = k
    · simp [alistInsert, alistLookup, h]
    · simp [alistInsert, alistLookup, h, ih]

theorem alistLookup_insert_ne {α : Type} (k q : String) (v : α) (l : List (String × α))
    (h : k ≠ q) : alistLookup q (alistInsert k v l) = alistLookup q l := by
  induction l with
  | nil => simp [alistInsert, alistLookup, h]
  | cons p rest ih =>
    by_cases hp : p.1 = k
    · simp [alistInsert, alistLookup, hp, h, ih]
    · simp only [alistInsert, hp, if_false, alistLookup]
      by_cases hq : p.1 = q <;> simp [hq, ih]

theorem mem_alistInsert {α : Type} (p : String × α) (k : String) (v : α)
    (l : List (String × α)) (h : p ∈ alistInsert k v l) : p = (k, v) ∨ p ∈ l := by
  induction l with
  | nil => simpa [alistInsert] using h
  | cons q rest ih =>
    obtain ⟨qk, qv⟩ := q
    by_cases hq : qk = k
    · simp only [alistInsert, hq, if_true, List.mem_cons] at h
      rcases h with h | h
      · exact .inl h
      · exact .inr (List.mem_cons_of_mem _ h)
    · simp only [alistInsert, hq, if_false, List.mem_cons] at h
      rcases h with h | h
      · exact .inr (by simp [h])
      · rcases ih h with h' | h'
        · exact .inl h'
        · exact .inr (List.mem_cons_of_mem _ h')

theorem self_mem_alistInsert {α : Type} (k : String) (v : α) (l : List (String × α)) :
    (k, v) ∈ alistInsert k v l := by
  induction l with
  | nil => simp [alistInsert]
  | cons p rest ih =>
    obtain ⟨pk, pv⟩ := p
    by_cases hp : pk = k <;> simp [alistInsert, hp, ih]

theorem alistLookup_mem {α : Type} {k : String} {v : α} {l : List (String × α)}
    (h : alistLookup k l = some v) : (k, v) ∈ l := by
  induction l with
  | nil => simp [alistLookup] at h
  | cons p rest ih =>
    obtain ⟨pk, pv⟩ := p
    by_cases hp : pk = k
    · simp only [alistLookup, hp, if_true, Option.some.injEq] at h
      subst hp
      subst h
      exact List.mem_cons_self _ _
    · simp only [alistLookup, hp, if_false] at h
      exact List.mem_cons_of_mem _ (ih h)

theorem alistInsert_of_lookup_none {α : Type} {k : String} (v : α)
    {l : List (String × α)} (h : alistLookup k l = none) :
    alistInsert k v l = l ++ [(k, v)] := by
  induction l with
  | nil => simp [alistInsert]
  | cons p rest ih =>
    obtain ⟨pk, pv⟩ := p
    by_cases hp : pk = k
    · simp [alistLookup, hp] at h
    · simp only [alistLookup, hp, if_false] at h
      simp [alistInsert, hp, ih h]

theorem alistLookup_erase_self {α : Type} (k : String) (l : List (String × α)) :
    alistLookup k (alistErase k l) = none := by
  induction l with
  | nil => simp [alistErase, alistLookup]
  | cons p rest ih =>
    obtain ⟨pk, pv⟩ := p
    by_cases hp : pk = k
    · simpa [alistErase, hp] using ih
    · simpa [alistErase, alistLookup, hp] using ih

theorem alistLookup_erase_ne {α : Type} (k q : String) (l : List (String × α))
    (h : q ≠ k) : alistLookup q (alistErase k l) = alistLookup q l := by
  induction l with
  | nil => simp [alistErase, alistLookup]
  | cons p rest ih =>
    obtain ⟨pk, pv⟩ := p
    by_cases hp : pk = k
    · have hkq : ¬ k = q := fun hh => h hh.symm
      simpa [alistErase, List.filter_cons, alistLookup, hp, hkq] using ih
    · by_cases hq : pk = q
      · have hqk : ¬ q = k := hq ▸ hp
        simp [alistErase, List.filter_cons, alistLookup, hp, hq, hqk]
      · simpa [alistErase, List.filter_cons, alistLookup, hp, hq] using ih

theorem any_eq_isSome_alistLookup {α : Type} (k : String) (l : List (String × α)) :
    l.any (fun p => p.1 == k) = (alistLookup k l).isSome := by
  induction l with
  | nil => simp [alistLookup]
  | cons p rest ih =>
    by_cases hp : p.1 = k <;> simp [alistLookup, hp, ih]

theorem append_dash_inj (a : String) : Function.Injective (fun n => a ++ "-" ++ n) := by
  intro n1 n2 h
  have hd := congrArg String.data h
  simp only [String.data_append] at hd
  exact String.ext (List.append_cancel_left hd)

theorem containerKey_ne_server_alias (r : ServerReport) (c : Container) :
    containerKey r c ≠ r.server_alias := by
  intro h
  have hl := congrArg String.length h
  rw [containerKey, String.length_append, String.length_append] at hl
  have hone : ("-" : String).length = 1 := rfl
  omega

theorem nodup_containerKeys (r : ServerReport)
    (h : (r.containers.map (fun c => c.name)).Nodup) :
    (r.containers.map (containerKey r)).Nodup := by
  have hmap : r.containers.map (containerKey r)
      = (r.containers.map (fun c => c.name)).map (fun n => r.server_alias ++ "-" ++ n) := by
    rw [List.map_map]
    rfl
  rw [hmap]
  exact h.map (append_dash_inj r.server_alias)

theorem alistLookup_foldl_insert_of_ne {α β : Type} (keyOf : β → String) (f : β → α)
    (q : String) :
    ∀ (cs : List β) (mr : List (String × α)), (∀ c ∈ cs, keyOf c ≠ q) →
      alistLookup q (cs.foldl (fun m c => alistInsert (keyOf c) (f c) m) mr)
        = alistLookup q mr := by
  intro cs
  induction cs with
  | nil => intro mr _; rfl
  | cons c rest ih =>
    intro mr hne
    rw [List.foldl_cons, ih _ (fun d hd => hne d (List.mem_cons_of_mem _ hd)),
      alistLookup_insert_ne _ _ _ _ (hne c (List.mem_cons_self _ _))]

theorem alistLookup_foldl_insert_mem {α β : Type} (keyOf : β → String) (f : β → α) :
    ∀ (cs : List β) (mr : List (String × α)), (cs.map keyOf).Nodup →
      ∀ c ∈ cs,
        alistLookup (keyOf c) (cs.foldl (fun m d => alistInsert (keyOf d) (f d) m) mr)
          = some (f c) := by
  intro cs
  induction cs with
  | nil => intro mr _ c hc; cases hc
  | cons c0 rest ih =>
    intro mr hnd c hc
    have hnd' : (rest.map keyOf).Nodup := (List.nodup_cons.mp (by simpa using hnd)).2
    rcases List.mem_cons.mp hc with h | h
    · subst h
      have hne : ∀ d ∈ rest, keyOf d ≠ keyOf c :=
        fun d hd hdc => (List.nodup_cons.mp (by simpa using hnd)).1 (hdc ▸ List.mem_map_of_mem keyOf hd)
      rw [List.foldl_cons, alistLookup_foldl_insert_of_ne keyOf f _ rest _ hne,
        alistLookup_insert_self]
    · rw [List.foldl_cons]
      exact ih _ hnd' c h

theorem length_filter_parent_foldl_insert (a : String) (keyOf : Container → String)
    (f : Container → Machine) (hpar : ∀ c, (f c).parent = some a) :
    ∀ (cs : List Container) (mr : List (String × Machine)),
      (∀ c ∈ cs, alistLookup (keyOf c) mr = none) → (cs.map keyOf).Nodup →
      ((cs.foldl (fun m c => alistInsert (keyOf c) (f c) m) mr).filter
          (fun p => decide (p.2.parent = some a))).length
        = (mr.filter (fun p => decide (p.2.parent = some a))).length + cs.length := by
  intro cs
  induction cs with
  | nil => intro mr _ _; simp
  | cons c rest ih =>
    intro mr hfresh hnd
    have hnone : alistLookup (keyOf c) mr = none := hfresh c (List.mem_cons_self _ _)
    have hne : ∀ d ∈ rest, keyOf d ≠ keyOf c :=
      fun d hd hdc => (List.nodup_cons.mp (by simpa using hnd)).1 (hdc ▸ List.mem_map_of_mem keyOf hd)
    have hfresh' : ∀ d ∈ rest,
        alistLookup (keyOf d) (alistInsert (keyOf c) (f c) mr) = none := by
      intro d hd
      rw [alistLookup_insert_ne _ _ _ _ (fun hh => hne d hd hh.symm)]
      exact hfresh d (List.mem_cons_of_mem _ hd)
    have hnd' : (rest.map keyOf).Nodup := (List.nodup_cons.mp (by simpa using hnd)).2
    rw [List.foldl_cons, ih _ hfresh' hnd', alistInsert_of_lookup_none _ hnone,
      List.filter_append, List.length_append]
    simp [hpar c]
    omega

theorem applyEnvVars_str (pairs : List (List (String × String))) :
    ∀ (c : String) (acc : List (String × String)),
      applyEnvVars pairs (.str c) acc
        = .ok (.str (spec_substitute pairs c), acc ++ spec_env_list pairs) := by
  induction pairs with
  | nil => intro c acc; simp [applyEnvVars, spec_substitute, spec_env_list]
  | cons ev rest ih =>
    intro c acc
    cases hn : alistLookup "name" ev with
    | none =>
      cases hv : alistLookup "value" ev with
      | none => simp [applyEnvVars, spec_substitute, spec_env_list, hn, hv, ih]
      | some v => simp [applyEnvVars, spec_substitute, spec_env_list, hn, hv, ih]
    | some n =>
      cases hv : alistLookup "value" ev with
      | none => simp [applyEnvVars, spec_substitute, spec_env_list, hn, hv, ih]
      | some v =>
        simp [applyEnvVars, spec_substitute, spec_env_list, hn, hv, pyStrReplace, ih]

theorem append_dash_ne_self (a n : String) : a ++ "-" ++ n ≠ a := by
  intro h
  have hl := congrArg String.length h
  rw [String.length_append, String.length_append] at hl
  have hone : ("-" : String).length = 1 := rfl
  omega

theorem statusOf_status (parseTs : String → Option Int) (S now t : Int) (r : ServerRecord)
    (hp : parseTs (pyReplace r.received_at "Z" "+00:00") = some t) :
    (statusOf parseTs S now r).status = if now - t > S then "down" else "ok" := by
  simp only [statusOf, is_server_stale, hp]
  by_cases h : now - t > S <;> simp [h]

/- ==================== CLAIM THEOREMS ==================== -/

/-- C7: every `received_at` string whose parse fails (after normalizing a
trailing `Z` to `+00:00`) makes `is_server_stale` report the record as stale
(`true`); the exception is caught inside the function (the Python code logs
it with `print`), so the staleness check — and with it every status read —
is total and never propagates a parse error. -/
theorem c7_unparsable_timestamp_is_stale
    (parseTs : String → Option Int) (threshold now : Int) (s : String)
    (h : parseTs (pyReplace s "Z" "+00:00") = none) :
    is_server_stale parseTs threshold now s = true := by
  simp [is_server_stale, h]

theorem c7_witness :
    demoParseTs (pyReplace "not-a-date" "Z" "+00:00") = none ∧
    is_server_stale demoParseTs 300 1000 "not-a-date" = true :=
  ⟨by decide,
   c7_unparsable_timestamp_is_stale demoParseTs 300 1000 "not-a-date" (by decide)⟩

/-- C10: for a non-empty `Authorization` header, `verify_api_key` accepts
exactly the values that equal the configured key after deleting every
occurrence of the substring `"Bearer "` (not just a leading prefix — Python
`str.replace` replaces all occurrences) and stripping surrounding
whitespace. -/
theorem c10_bearer_removed_everywhere (apiKey a : String) (h : ¬ a = "") :
    verify_api_key apiKey (some a) = true ↔
      pyStrip (pyReplace a "Bearer " "") = apiKey := by
  simp [verify_api_key, h]

theorem c10_witness :
    verify_api_key "secret" (some "Bearer Bearer secret") = true ∧
    verify_api_key "secret" (some "seBearer cret") = true :=
  ⟨(c10_bearer_removed_everywhere "secret" "Bearer Bearer secret" (by decide)).mpr (by decide),
   (c10_bearer_removed_everywhere "secret" "seBearer cret" (by decide)).mpr (by decide)⟩

/-- C8: when the API key does not verify (missing header or wrong token),
each of the four protected operations — report ingest, server delete, stack
deploy, stack delete — returns 401.  In the model an `.error` result carries
no successor state and no outbound request, mirroring the Python code where
the `HTTPException` is raised before any assignment to `server_data` or
`machine_registry` and before any call on the Portainer client. -/
theorem c8_unauthorized_rejected_no_mutation
    (apiKey : String) (auth : Option String) (h : verify_api_key apiKey auth = false)
    (report : ServerReport) (nowStr : String) (st : BackendState) (alias' : String)
    (configured : Bool) (base : String) (loads : String → Option JValue) (raw : String)
    (endpoint : Endpoint) (name : String) (endpoint_id : Nat)
    (env_vars : Option (List (List (String × String)))) (stack_id : Nat) :
    receive_report apiKey auth report nowStr st = .error 401 ∧
    delete_server apiKey auth alias' st = .error 401 ∧
    deploy_stack_endpoint apiKey auth configured base loads raw endpoint name
      endpoint_id env_vars = .error 401 ∧
    delete_stack_endpoint apiKey auth configured stack_id endpoint_id = .error 401 := by
  refine ⟨?_, ?_, ?_, ?_⟩ <;>
    simp [receive_report, delete_server, deploy_stack_endpoint, delete_stack_endpoint, h]

theorem c8_witness :
    receive_report "secret" none demoReport "2026-01-01T00:00:00Z" emptyState = .error 401 ∧
    delete_server "secret" none "srv" demoState2 = .error 401 ∧
    deploy_stack_endpoint "secret" none true "/api" demoLoads "x" demoEndpointSwarm
      "web" 1 none = .error 401 ∧
    delete_stack_endpoint "secret" none true 3 1 = .error 401 :=
  c8_unauthorized_rejected_no_mutation "secret" none (by decide) demoReport
    "2026-01-01T00:00:00Z" emptyState "srv" true "/api" demoLoads "x"
    demoEndpointSwarm "web" 1 none 3

/-- C6: with a valid API key, deleting an alias that has a server record
succeeds and removes exactly that server record together with every
machine-registry entry whose key equals the alias or whose parent equals the
alias, leaving every other server record and registry entry unchanged;
deleting an alias with no server record fails with 404 (and, the result
being an error, no state change occurs). -/
theorem c6_delete_cascades
    (apiKey : String) (auth : Option String) (alias' : String) (st : BackendState)
    (hauth : verify_api_key apiKey auth = true) :
    (∀ r, alistLookup alias' st.server_data = some r →
      ∃ st2, delete_server apiKey auth alias' st = .ok st2 ∧
        alistLookup alias' st2.server_data = none ∧
        (∀ k, k ≠ alias' → alistLookup k st2.server_data = alistLookup k st.server_data) ∧
        (∀ p, p ∈ st2.machine_registry ↔
          p ∈ st.machine_registry ∧ ¬ (p.1 = alias' ∨ p.2.parent = some alias'))) ∧
    (alistLookup alias' st.server_data = none →
      delete_server apiKey auth alias' st = .error 404) := by
  constructor
  · intro r hr
    refine ⟨{ server_data := alistErase alias' st.server_data,
              machine_registry := st.machine_registry.filter
                (fun p => decide (¬ (p.1 = alias' ∨ p.2.parent = some alias'))) },
            ?_, ?_, ?_, ?_⟩
    · simp [delete_server, hauth, hr]
    · exact alistLookup_erase_self _ _
    · intro k hk
      exact alistLookup_erase_ne _ _ _ hk
    · intro p
      rw [List.mem_filter]
      simp
  · intro h
    simp [delete_server, hauth, h]

theorem c6_witness :
    ∃ st2, delete_server "secret" (some "secret") "srv" demoState2 = .ok st2 ∧
      alistLookup "srv" st2.server_data = none ∧
      (∀ k, k ≠ "srv" → alistLookup k st2.server_data = alistLookup k demoState2.server_data) ∧
      (∀ p, p ∈ st2.machine_registry ↔
        p ∈ demoState2.machine_registry ∧ ¬ (p.1 = "srv" ∨ p.2.parent = some "srv")) :=
  (c6_delete_cascades "secret" (some "secret") "srv" demoState2 (by decide)).1
    { report := demoReport, received_at := "2026-01-01T00:00:00Z", status := "ok" } (by rfl)

/-- C9: ingesting a new report for an alias never removes container entries
left by that alias's earlier reports: any registry entry keyed
`{alias}-{name}` where no container named `name` occurs in the new report is
still present, unchanged, after the ingest.  (Entries are only overwritten
when a container with the same name recurs.) -/
theorem c9_ingest_preserves_unrelated_container_entries
    (apiKey : String) (auth : Option String) (report : ServerReport) (nowStr : String)
    (st st2 : BackendState) (resp : String) (name : String) (m : Machine)
    (hingest : receive_report apiKey auth report nowStr st = .ok (st2, resp))
    (hname : name ∉ report.containers.map (fun c => c.name))
    (hm : alistLookup (report.server_alias ++ "-" ++ name) st.machine_registry = some m) :
    alistLookup (report.server_alias ++ "-" ++ name) st2.machine_registry = some m := by
  rw [receive_report] at hingest
  by_cases hv : verify_api_key apiKey auth
  · simp only [hv, if_true, Except.ok.injEq, Prod.mk.injEq] at hingest
    obtain ⟨hst, -⟩ := hingest
    subst hst
    have hne : ∀ c ∈ report.containers,
        containerKey report c ≠ report.server_alias ++ "-" ++ name := by
      intro c hc hkey
      exact hname (by
        have : c.name = name := append_dash_inj report.server_alias hkey
        exact this ▸ List.mem_map_of_mem _ hc)
    rw [show ({ server_data := _, machine_registry := _ } : BackendState).machine_registry
        = report.containers.foldl
            (fun mr c => alistInsert (containerKey report c) (containerMachine report c) mr)
            (alistInsert report.server_alias (hostMachine report) st.machine_registry)
      from rfl]
    rw [alistLookup_foldl_insert_of_ne (containerKey report) (containerMachine report)
      _ report.containers _ hne]
    rw [alistLookup_insert_ne _ _ _ _
      (Ne.symm (append_dash_ne_self report.server_alias name))]
    exact hm
  · simp [hv] at hingest

theorem c9_witness :
    alistLookup (demoReport.server_alias ++ "-" ++ "old") demoStateOld2.machine_registry
      = some demoOldMachine :=
  c9_ingest_preserves_unrelated_container_entries "secret" (some "secret") demoReport
    "2026-01-01T00:00:00Z" demoStateOld demoStateOld2 "2026-01-01T00:00:00Z" "old"
    demoOldMachine (by rfl) (by decide) (by rfl)

/-- C2: whenever the template resolves to a string `s0`, `deploy` succeeds
and the request body it forwards carries exactly the spec-mandated content:
`stackFileContent` is `s0` with, for each caller-supplied pair having both a
`name` and a `value` key and in order, every occurrence of the literal token
`\x7b\x7b name \x7d\x7d` replaced by `value` via plain string replacement
(no escaping, all occurrences — `pyReplace` is CPython `str.replace`), and
`env` is exactly the list of those pairs. -/
theorem c2_deploy_substitutes_placeholders
    (base : String) (loads : String → Option JValue) (raw : String) (endpoint : Endpoint)
    (name : String) (endpoint_id : Nat) (env_vars : Option (List (List (String × String))))
    (s0 : String)
    (hfile : get_custom_template_file loads raw = .ok (.str s0)) :
    ∃ req, deploy_stack_from_template base loads raw endpoint name endpoint_id env_vars
        = .ok req ∧
      req.stackFileContent = .str (spec_substitute (env_vars.getD []) s0) ∧
      req.env = spec_env_list (env_vars.getD []) ∧
      req.name = name := by
  refine ⟨{ url := stackCreateUrl base (computeIsSwarm endpoint) endpoint_id,
            name := name,
            stackFileContent := .str (spec_substitute (env_vars.getD []) s0),
            env := spec_env_list (env_vars.getD []) }, ?_, rfl, rfl, rfl⟩
  simp only [deploy_stack_from_template, hfile, applyEnvVars_str, List.nil_append]

theorem c2_witness :
    spec_substitute (demoEnvVars.getD []) demoComposeRaw = "port: 8080and8080" ∧
    ∃ req, deploy_stack_from_template "/api" (fun _ => none) demoComposeRaw
        demoEndpointStandalone "web" 1 demoEnvVars = .ok req ∧
      req.stackFileContent = .str (spec_substitute (demoEnvVars.getD []) demoComposeRaw) ∧
      req.env = spec_env_list (demoEnvVars.getD []) ∧
      req.name = "web" :=
  ⟨by decide,
   c2_deploy_substitutes_placeholders "/api" (fun _ => none) demoComposeRaw
     demoEndpointStandalone "web" 1 demoEnvVars demoComposeRaw (by rfl)⟩

/-- C3: a successful `deploy` posts to `stackCreateUrl base is_swarm eid`
where the swarm flag is true exactly when the endpoint's first snapshot
carries `Swarm = true`; an endpoint without any snapshots (missing key or
empty list) yields the standalone URL; and the swarm URL differs from the
standalone URL, so the choice is exclusive. -/
theorem c3_swarm_endpoint_choice
    (base : String) (loads : String → Option JValue) (raw : String) (endpoint : Endpoint)
    (name : String) (endpoint_id : Nat) (env_vars : Option (List (List (String × String))))
    (req : StackCreateRequest)
    (h : deploy_stack_from_template base loads raw endpoint name endpoint_id env_vars
      = .ok req) :
    req.url = stackCreateUrl base (computeIsSwarm endpoint) endpoint_id ∧
    (computeIsSwarm endpoint = true ↔
      ∃ s rest, endpoint.snapshots = some (s :: rest) ∧ s.swarm = some true) ∧
    ((endpoint.snapshots = none ∨ endpoint.snapshots = some []) →
      computeIsSwarm endpoint = false) ∧
    stackCreateUrl base true endpoint_id ≠ stackCreateUrl base false endpoint_id := by
  refine ⟨?_, ?_, ?_, ?_⟩
  · cases hgf : get_custom_template_file loads raw with
    | error e => simp [deploy_stack_from_template, hgf] at h
    | ok fc0 =>
      cases hae : applyEnvVars (env_vars.getD []) fc0 [] with
      | error e => simp [deploy_stack_from_template, hgf, hae] at h
      | ok pr =>
        obtain ⟨fc, env_list⟩ := pr
        simp only [deploy_stack_from_template, hgf, hae, Except.ok.injEq] at h
        subst h
        rfl
  · cases hsn : endpoint.snapshots with
    | none => simp [computeIsSwarm, hsn]
    | some l =>
      cases l with
      | nil => simp [computeIsSwarm, hsn]
      | cons s rest =>
        cases hw : s.swarm with
        | none => simp [computeIsSwarm, hsn, hw]
        | some b => cases b <;> simp [computeIsSwarm, hsn, hw]
  · intro hs
    rcases hs with hs | hs <;> simp [computeIsSwarm, hs]
  · intro hh
    have hl := congrArg String.length hh
    have e1 : stackCreateUrl base true endpoint_id
        = base ++ "/stacks/create/swarm/string?endpointId=" ++ toString endpoint_id := by
      simp [stackCreateUrl]
    have e2 : stackCreateUrl base false endpoint_id
        = base ++ "/stacks/create/standalone/string?endpointId=" ++ toString endpoint_id := by
      simp [stackCreateUrl]
    rw [e1, e2, String.length_append, String.length_append, String.length_append,
      String.length_append] at hl
    have hne : ("/stacks/create/swarm/string?endpointId=" : String).length
        ≠ ("/stacks/create/standalone/string?endpointId=" : String).length := by decide
    omega

theorem c3_witness :
    demoDeployReq.url = stackCreateUrl "/api" (computeIsSwarm demoEndpointSwarm) 1 ∧
    (computeIsSwarm demoEndpointSwarm = true ↔
      ∃ s rest, demoEndpointSwarm.snapshots = some (s :: rest) ∧ s.swarm = some true) ∧
    ((demoEndpointSwarm.snapshots = none ∨ demoEndpointSwarm.snapshots = some []) →
      computeIsSwarm demoEndpointSwarm = false) ∧
    stackCreateUrl "/api" true 1 ≠ stackCreateUrl "/api" false 1 :=
  c3_swarm_endpoint_choice "/api" (fun _ => none) demoComposeRaw demoEndpointSwarm
    "web" 1 none demoDeployReq (by rfl)

/-- C4 counterexample: on file content `"[5]"` — valid JSON that does not
parse as the App-Template format — the claim says `getTemplateFile` returns
the raw content verbatim and never fails; in fact `"repository" in parsed[0]`
evaluates `in` on the integer 5, which raises a `TypeError` that the
`except (JSONDecodeError, KeyError, IndexError)` clause does not catch, so
the call fails instead of returning `"[5]"`. -/
theorem c4_counterexample :
    get_custom_template_file demoLoads "[5]" = .error .typeError ∧
    get_custom_template_file demoLoads "[5]" ≠ .ok (.str "[5]") := by
  constructor
  · rfl
  · intro hh
    rw [show get_custom_template_file demoLoads "[5]" = .error .typeError from rfl] at hh
    exact Except.noConfusion hh

/-- C4 (amended): `get_custom_template_file` returns the nested
`repository.stackfile` value when the content decodes to a non-empty JSON
array whose first element is an object whose `repository` field is an object
containing a `stackfile` key; it returns the raw content verbatim when the
content is not valid JSON, decodes to a non-array or an empty array, or when
the first element is an object without a `repository` key or whose
`repository` object lacks `stackfile`.  However, content that decodes to an
array whose first element is not an object (e.g. a number) raises an
uncaught `TypeError` instead of returning the raw content. -/
theorem c4_template_file_amended (loads : String → Option JValue) (fc : String) :
    (loads fc = none → get_custom_template_file loads fc = .ok (.str fc)) ∧
    (∀ p, loads fc = some p → (∀ xs, p ≠ .arr xs) →
      get_custom_template_file loads fc = .ok (.str fc)) ∧
    (loads fc = some (.arr []) → get_custom_template_file loads fc = .ok (.str fc)) ∧
    (∀ fields rest, loads fc = some (.arr (.obj fields :: rest)) →
      alistLookup "repository" fields = none →
      get_custom_template_file loads fc = .ok (.str fc)) ∧
    (∀ fields rest rf v, loads fc = some (.arr (.obj fields :: rest)) →
      alistLookup "repository" fields = some (.obj rf) →
      alistLookup "stackfile" rf = some v →
      get_custom_template_file loads fc = .ok v) ∧
    (∀ fields rest rf, loads fc = some (.arr (.obj fields :: rest)) →
      alistLookup "repository" fields = some (.obj rf) →
      alistLookup "stackfile" rf = none →
      get_custom_template_file loads fc = .ok (.str fc)) ∧
    (∀ q rest, loads fc = some (.arr (.num q :: rest)) →
      get_custom_template_file loads fc = .error .typeError) := by
  refine ⟨?_, ?_, ?_, ?_, ?_, ?_, ?_⟩
  · intro h
    simp [get_custom_template_file, templateFileTry, h, PyErr.caught]
  · intro p hp hna
    cases p with
    | arr xs => exact absurd rfl (hna xs)
    | null => simp [get_custom_template_file, templateFileTry, hp]
    | bool b => simp [get_custom_template_file, templateFileTry, hp]
    | num q => simp [get_custom_template_file, templateFileTry, hp]
    | str s => simp [get_custom_template_file, templateFileTry, hp]
    | obj f => simp [get_custom_template_file, templateFileTry, hp]
  · intro h
    simp [get_custom_template_file, templateFileTry, h]
  · intro fields rest hl hr
    have hany : (fields.any (fun p => p.1 == "repository")) = false := by
      rw [any_eq_isSome_alistLookup, hr]
      rfl
    simp [get_custom_template_file, templateFileTry, hl, pyContains, hany]
  · intro fields rest rf v hl hr hs
    have hany : (fields.any (fun p => p.1 == "repository")) = true := by
      rw [any_eq_isSome_alistLookup, hr]
      rfl
    have hany2 : (rf.any (fun p => p.1 == "stackfile")) = true := by
      rw [any_eq_isSome_alistLookup, hs]
      rfl
    simp [get_custom_template_file, templateFileTry, hl, pyContains, hany,
      pySubscript, hr, hany2, hs]
  · intro fields rest rf hl hr hs
    have hany : (fields.any (fun p => p.1 == "repository")) = true := by
      rw [any_eq_isSome_alistLookup, hr]
      rfl
    have hany2 : (rf.any (fun p => p.1 == "stackfile")) = false := by
      rw [any_eq_isSome_alistLookup, hs]
      rfl
    simp [get_custom_template_file, templateFileTry, hl, pyContains, hany,
      pySubscript, hr, hany2]
  · intro q rest hl
    simp [get_custom_template_file, templateFileTry, hl, pyContains, PyErr.caught]

theorem c4_witness :
    get_custom_template_file demoLoads "plain: compose" = .ok (.str "plain: compose") ∧
    get_custom_template_file demoLoads "APP" = .ok (.str "services: stack") :=
  ⟨(c4_template_file_amended demoLoads "plain: compose").1 (by rfl),
   (c4_template_file_amended demoLoads "APP").2.2.2.2.1
     [("type", .num 1), ("title", .str "demo"),
      ("repository", .obj [("url", .str "https://example.com"),
                           ("stackfile", .str "services: stack")])]
     []
     [("url", .str "https://example.com"), ("stackfile", .str "services: stack")]
     (.str "services: stack") (by rfl) (by rfl) (by rfl)⟩

/-- C5 counterexample: `demoReportDup` carries N = 2 containers, but both
are named `web`, so their registry keys `srv-web` collide and the second
write overwrites the first — after ingesting into the empty state the
registry holds exactly 1 container entry, not 2, refuting the claim that a
report with N containers always creates exactly N container entries. -/
theorem c5_counterexample :
    demoReportDup.containers.length = 2 ∧
    (demoStateDup.machine_registry.filter
      (fun p => decide (p.2.type = "container"))).length = 1 ∧
    (demoStateDup.machine_registry.filter
      (fun p => decide (p.2.parent = some "srv"))).length = 1 := by
  refine ⟨rfl, ?_, ?_⟩ <;> rfl

/-- C5 (amended): ingesting a report whose container names are pairwise
distinct, into a state whose registry holds no entry keyed like one of the
report's containers and no entry parented to the alias, creates exactly N
container machine entries — one per container, keyed `{alias}-{name}`, with
`parent` the host alias and status `"online"` iff the container state is
exactly `"running"`; and `get_machines` returns every container-typed entry
unchanged, never re-deriving its status from staleness. -/
theorem c5_container_entries_amended
    (apiKey : String) (auth : Option String) (report : ServerReport) (nowStr : String)
    (st st2 : BackendState) (resp : String)
    (parseTs : String → Option Int) (threshold now : Int)
    (hingest : receive_report apiKey auth report nowStr st = .ok (st2, resp))
    (hnodup : (report.containers.map (fun c => c.name)).Nodup)
    (hfresh : ∀ c ∈ report.containers,
      alistLookup (containerKey report c) st.machine_registry = none)
    (hnopar : ∀ p ∈ st.machine_registry, p.2.parent ≠ some report.server_alias) :
    (∀ c ∈ report.containers,
      alistLookup (containerKey report c) st2.machine_registry
        = some (containerMachine report c)) ∧
    ((st2.machine_registry.filter
        (fun p => decide (p.2.parent = some report.server_alias))).length
      = report.containers.length) ∧
    (∀ c : Container,
      (containerMachine report c).id = containerKey report c ∧
      (containerMachine report c).parent = some report.server_alias ∧
      ((containerMachine report c).status = "online" ↔ c.state = "running")) ∧
    (∀ (st' : BackendState) (p : String × Machine), p ∈ st'.machine_registry →
      p.2.type = "container" → p.2 ∈ get_machines parseTs threshold now st') := by
  rw [receive_report] at hingest
  by_cases hv : verify_api_key apiKey auth
  case neg => simp [hv] at hingest
  simp only [hv, if_true, Except.ok.injEq, Prod.mk.injEq] at hingest
  obtain ⟨hst, -⟩ := hingest
  subst hst
  have hk := nodup_containerKeys report hnodup
  refine ⟨?_, ?_, ?_, ?_⟩
  · intro c hc
    exact alistLookup_foldl_insert_mem (containerKey report) (containerMachine report)
      report.containers _ hk c hc
  · have hfresh1 : ∀ c ∈ report.containers,
        alistLookup (containerKey report c)
          (alistInsert report.server_alias (hostMachine report) st.machine_registry)
          = none := by
      intro c hc
      rw [alistLookup_insert_ne _ _ _ _
        (Ne.symm (containerKey_ne_server_alias report c))]
      exact hfresh c hc
    have hbase : ((alistInsert report.server_alias (hostMachine report)
        st.machine_registry).filter
        (fun p => decide (p.2.parent = some report.server_alias))).length = 0 := by
      rw [List.length_eq_zero, List.filter_eq_nil_iff]
      intro p hp
      rcases mem_alistInsert p _ _ _ hp with h | h
      · subst h
        simp [hostMachine]
      · have := hnopar p h
        simp [this]
    rw [show ({ server_data := _, machine_registry := _ } : BackendState).machine_registry
        = report.containers.foldl
            (fun mr c => alistInsert (containerKey report c) (containerMachine report c) mr)
            (alistInsert report.server_alias (hostMachine report) st.machine_registry)
      from rfl]
    rw [length_filter_parent_foldl_insert report.server_alias (containerKey report)
      (containerMachine report) (fun c => rfl) report.containers _ hfresh1 hk, hbase]
    omega
  · intro c
    refine ⟨rfl, rfl, ?_⟩
    by_cases h : c.state = "running"
    · simp [containerMachine, h]
    · simp only [containerMachine, h, if_false]
      exact iff_of_false (by decide) not_false
  · intro st' p hp ht
    have hneq : ¬ p.2.type = "host" := by
      rw [ht]
      decide
    refine List.mem_map.mpr ⟨p, hp, ?_⟩
    simp [hneq]

theorem c5_witness :
    (∀ c ∈ demoReport.containers,
      alistLookup (containerKey demoReport c) demoState2.machine_registry
        = some (containerMachine demoReport c)) ∧
    ((demoState2.machine_registry.filter
        (fun p => decide (p.2.parent = some demoReport.server_alias))).length
      = demoReport.containers.length) ∧
    (∀ c : Container,
      (containerMachine demoReport c).id = containerKey demoReport c ∧
      (containerMachine demoReport c).parent = some demoReport.server_alias ∧
      ((containerMachine demoReport c).status = "online" ↔ c.state = "running")) ∧
    (∀ (st' : BackendState) (p : String × Machine), p ∈ st'.machine_registry →
      p.2.type = "container" → p.2 ∈ get_machines demoParseTs 300 0 st') :=
  c5_container_entries_amended "secret" (some "secret") demoReport
    "2026-01-01T00:00:00Z" emptyState demoState2 "2026-01-01T00:00:00Z"
    demoParseTs 300 0 (by rfl) (by decide) (fun c hc => rfl)
    (fun p hp => absurd hp (List.not_mem_nil p))

/-- C1: after a report is ingested at instant T (the stored `received_at`
string parses back to T), every stored record whose timestamp parses to `t`
is reported by `get_status` as `"down"` exactly when `now - t > S` (strictly
greater than the threshold) and as `"ok"` otherwise; in particular the
freshly ingested server shows `"ok"` when read at `T + S - 1` and `"down"`
when read at `T + S + 1`. -/
theorem c1_status_down_iff_age_exceeds
    (parseTs : String → Option Int) (apiKey : String) (S T : Int)
    (auth : Option String) (report : ServerReport) (nowStr : String)
    (st st2 : BackendState) (resp : String)
    (hingest : receive_report apiKey auth report nowStr st = .ok (st2, resp))
    (hparse : parseTs (pyReplace nowStr "Z" "+00:00") = some T) :
    (∀ (now t : Int) (k : String) (r : ServerRecord),
      (k, r) ∈ st2.server_data →
      parseTs (pyReplace r.received_at "Z" "+00:00") = some t →
      statusOf parseTs S now r ∈ get_status parseTs S now st2 ∧
      ((statusOf parseTs S now r).status = "down" ↔ now - t > S) ∧
      ((statusOf parseTs S now r).status = "ok" ↔ ¬ now - t > S)) ∧
    (∃ e ∈ get_status parseTs S (T + S - 1) st2,
      e.server_alias = report.server_alias ∧ e.status = "ok") ∧
    (∃ e ∈ get_status parseTs S (T + S + 1) st2,
      e.server_alias = report.server_alias ∧ e.status = "down") := by
  rw [receive_report] at hingest
  by_cases hv : verify_api_key apiKey auth
  case neg => simp [hv] at hingest
  simp only [hv, if_true, Except.ok.injEq, Prod.mk.injEq] at hingest
  obtain ⟨hst, -⟩ := hingest
  subst hst
  refine ⟨?_, ?_, ?_⟩
  · intro now t k r hmem hp
    refine ⟨List.mem_map.mpr ⟨(k, r), hmem, rfl⟩, ?_, ?_⟩
    · rw [statusOf_status parseTs S now t r hp]
      by_cases h : now - t > S
      · rw [if_pos h]
        exact iff_of_true rfl h
      · rw [if_neg h]
        exact iff_of_false (by decide) h
    · rw [statusOf_status parseTs S now t r hp]
      by_cases h : now - t > S
      · rw [if_pos h]
        exact iff_of_false (by decide) (not_not_intro h)
      · rw [if_neg h]
        exact iff_of_true rfl h
  · have hm : (report.server_alias,
        ({ report := report, received_at := nowStr, status := "ok" } : ServerRecord))
        ∈ (alistInsert report.server_alias
            { report := report, received_at := nowStr, status := "ok" }
            st.server_data) :=
      self_mem_alistInsert _ _ _
    refine ⟨statusOf parseTs S (T + S - 1)
        { report := report, received_at := nowStr, status := "ok" },
      List.mem_map.mpr ⟨_, hm, rfl⟩, rfl, ?_⟩
    rw [statusOf_status parseTs S (T + S - 1) T _ hparse]
    rw [if_neg (by omega)]
  · have hm : (report.server_alias,
        ({ report := report, received_at := nowStr, status := "ok" } : ServerRecord))
        ∈ (alistInsert report.server_alias
            { report := report, received_at := nowStr, status := "ok" }
            st.server_data) :=
      self_mem_alistInsert _ _ _
    refine ⟨statusOf parseTs S (T + S + 1)
        { report := report, received_at := nowStr, status := "ok" },
      List.mem_map.mpr ⟨_, hm, rfl⟩, rfl, ?_⟩
    rw [statusOf_status parseTs S (T + S + 1) T _ hparse]
    rw [if_pos (by omega)]

theorem c1_witness :
    (∃ e ∈ get_status demoParseTs 300 (0 + 300 - 1) demoState2,
      e.server_alias = demoReport.server_alias ∧ e.status = "ok") ∧
    (∃ e ∈ get_status demoParseTs 300 (0 + 300 + 1) demoState2,
      e.server_alias = demoReport.server_alias ∧ e.status = "down") :=
  (c1_status_down_iff_age_exceeds demoParseTs "secret" 300 0 (some "secret") demoReport
    "2026-01-01T00:00:00Z" emptyState demoState2 "2026-01-01T00:00:00Z"
    (by rfl) (by decide)).2
